import Mathlib

/-!
Shallow embedding of the `eeprom25x` SPI EEPROM driver (`src/lib.rs`).

The driver owns a SPI bus handle and a chip-select GPIO handle, both
supplied by the platform layer. We model the platform layer as an
oracle `Env` that fixes, for one transaction, the outcome of each
collaborator call the driver can make (chip-select assert, chip-select
deassert, first SPI call, second SPI call) and the byte stream the bus
clocks in during a transfer. Each driver operation is embedded as a
function from the oracle and its arguments to an `OpResult`: either an
abort (the Rust `assert!` fired, or the precondition arithmetic
trapped) carrying the events issued before the abort, or a completed
call carrying the returned `Result`, the full list of collaborator
events issued (in order, including failed calls), and the final
contents of the caller's buffer.
-/

namespace Eeprom25x

/-- Read instruction opcode (`INSTRUCTION_READ: u8 = 0x03`). -/
def INSTRUCTION_READ : Nat := 0x03

/-- Write instruction opcode (`INSTRUCTION_WRITE: u8 = 0x02`). -/
def INSTRUCTION_WRITE : Nat := 0x02

/-- Number of bytes in an EUI48 MAC address (`EUI48_BYTES: usize = 6`). -/
def EUI48_BYTES : Nat := 6

/-- EEPROM memory address of the EUI48 address (`EUI48_MEMORY_ADDRESS: u8 = 0xFA`). -/
def EUI48_MEMORY_ADDRESS : Nat := 0xFA

/-- EEPROM page size in bytes (`PAGE_SIZE: usize = 16`). -/
def PAGE_SIZE : Nat := 16

/-- Maximum EEPROM address (`MAX_ADDR: usize = 0xFF`). -/
def MAX_ADDR : Nat := 0xFF

/-- Collaborator calls the driver can make, recorded in order of
issue. A call is recorded whether it succeeds or fails: the event is
the attempt on the collaborator, not its outcome. -/
inductive Event where
  /-- Chip-select assert attempt: `cs.set_low()` in `chip_enable`. -/
  | csLow : Event
  /-- Chip-select deassert attempt: `cs.set_high()` in `chip_disable`. -/
  | csHigh : Event
  /-- Write-only bus transmission `spi.write(bytes)` with the bytes sent. -/
  | spiWrite : List Nat → Event
  /-- Combined bus exchange `spi.transfer(buffer)` with the buffer length. -/
  | spiTransfer : Nat → Event
deriving DecidableEq

/-- The driver error union (`enum Error<SpiError, PinError>`). -/
inductive Error (Se Pe : Type) where
  /-- SPI bus error wrapper (`Error::Spi`). -/
  | Spi : Se → Error Se Pe
  /-- GPIO pin error wrapper (`Error::Pin`). -/
  | Pin : Pe → Error Se Pe
deriving DecidableEq

/-- Oracle for one driver operation: the outcome each collaborator call
would have, and the byte stream the device clocks in during a transfer.
`none` means the call succeeds; `some e` means it fails with error `e`.
The two SPI results are indexed by call position within the operation
(an operation makes at most two SPI calls). -/
structure Env (Se Pe : Type) where
  /-- Outcome of `cs.set_low()` (chip-select assert). -/
  enableRes : Option Pe
  /-- Outcome of `cs.set_high()` (chip-select deassert). -/
  disableRes : Option Pe
  /-- Outcome of the first SPI call of the operation. -/
  bus1Res : Option Se
  /-- Outcome of the second SPI call of the operation. -/
  bus2Res : Option Se
  /-- Byte stream clocked into the buffer by a successful `spi.transfer`:
  the byte at stream position `i` replaces buffer position `i`. -/
  recv : Nat → Nat

/-- Result of one embedded driver operation. -/
inductive OpResult (Se Pe : Type) where
  /-- The operation aborted before returning: a Rust `assert!` fired or
  the precondition arithmetic trapped. Carries the collaborator events
  issued before the abort. -/
  | aborted : List Event → OpResult Se Pe
  /-- The operation returned. Carries the Rust return value, the full
  ordered list of collaborator events issued, and the final contents of
  the caller's buffer (empty list for write operations, which have no
  output buffer). -/
  | done : Except (Error Se Pe) Unit → List Event → List Nat → OpResult Se Pe

/-- The collaborator events an operation issued. -/
def opTrace {Se Pe : Type} : OpResult Se Pe → List Event
  | .aborted tr => tr
  | .done _ tr _ => tr

/-- The error an operation returned, if it returned one. -/
def opError {Se Pe : Type} : OpResult Se Pe → Option (Error Se Pe)
  | .aborted _ => none
  | .done (.error e) _ _ => some e
  | .done (.ok _) _ _ => none

/-- Whether the operation aborted (assertion failure / arithmetic trap). -/
def isAborted {Se Pe : Type} : OpResult Se Pe → Bool
  | .aborted _ => true
  | .done _ _ _ => false

/-- The `read_data` range check. The Rust source computes
`address as usize + data.len() - 1` and asserts it is `<= MAX_ADDR`.
When `address + len = 0` the subtraction underflows: debug builds trap
on the overflow, release builds wrap to `2^64 - 1`, which fails the
assertion; either way the call aborts, which we fold into one check:
the call proceeds iff `1 <= address + len` and
`address + len - 1 <= MAX_ADDR` (ordinary integer arithmetic). -/
def addr_len_ok (address len : Nat) : Bool :=
  decide (1 ≤ address + len ∧ address + len - 1 ≤ MAX_ADDR)

/-- Shared tail of every operation: the Rust pattern
`let result = ...; self.chip_disable()?; result`. The deassert attempt
is recorded; if it fails its pin error replaces `result`, otherwise
`result` is returned unchanged. -/
def finish_transaction {Se Pe : Type} (disableRes : Option Pe)
    (result : Except (Error Se Pe) Unit) (trace : List Event)
    (buf : List Nat) : OpResult Se Pe :=
  match disableRes with
  | some pe => .done (.error (.Pin pe)) (trace ++ [.csHigh]) buf
  | none => .done result (trace ++ [.csHigh]) buf

/-- Embedding of `read_data(address, data)`: range assertion, then
`chip_enable()?`, then `spi.write(&[INSTRUCTION_READ, address])?` and
`spi.transfer(data)?` inside the captured closure, then
`chip_disable()?`, then the captured closure result. On a successful
transfer the buffer is overwritten with the clocked-in stream; a failed
SPI call leaves the buffer unchanged. -/
def read_data {Se Pe : Type} (env : Env Se Pe) (address : Nat)
    (data : List Nat) : OpResult Se Pe :=
  if addr_len_ok address data.length then
    let cmd : List Nat := [INSTRUCTION_READ, address]
    match env.enableRes with
    | some pe => .done (.error (.Pin pe)) [.csLow] data
    | none =>
      match env.bus1Res with
      | some se =>
        finish_transaction env.disableRes (.error (.Spi se))
          [.csLow, .spiWrite cmd] data
      | none =>
        match env.bus2Res with
        | some se =>
          finish_transaction env.disableRes (.error (.Spi se))
            [.csLow, .spiWrite cmd, .spiTransfer data.length] data
        | none =>
          finish_transaction env.disableRes (.ok ())
            [.csLow, .spiWrite cmd, .spiTransfer data.length]
            ((List.range data.length).map env.recv)
  else .aborted []

/-- Embedding of `write_byte(address, data)`: `chip_enable()?`, then
`spi.write(&[INSTRUCTION_WRITE, address, data])` captured as `result`,
then `chip_disable()?`, then `result`. -/
def write_byte {Se Pe : Type} (env : Env Se Pe) (address data : Nat) :
    OpResult Se Pe :=
  let cmd : List Nat := [INSTRUCTION_WRITE, address, data]
  match env.enableRes with
  | some pe => .done (.error (.Pin pe)) [.csLow] []
  | none =>
    match env.bus1Res with
    | some se =>
      finish_transaction env.disableRes (.error (.Spi se))
        [.csLow, .spiWrite cmd] []
    | none =>
      finish_transaction env.disableRes (.ok ())
        [.csLow, .spiWrite cmd] []

/-- Embedding of `write_page(address, data)`: alignment assertion
`assert!(address % PAGE_SIZE as u8 == 0)`, then `chip_enable()?`, then
`spi.write(&[INSTRUCTION_WRITE, address])?` and `spi.write(&data)`
inside the captured closure, then `chip_disable()?`, then the captured
closure result. The Rust parameter is `[u8; PAGE_SIZE]`; here the
payload is a list whose length theorems constrain to `PAGE_SIZE`. -/
def write_page {Se Pe : Type} (env : Env Se Pe) (address : Nat)
    (data : List Nat) : OpResult Se Pe :=
  if address % PAGE_SIZE = 0 then
    let cmd : List Nat := [INSTRUCTION_WRITE, address]
    match env.enableRes with
    | some pe => .done (.error (.Pin pe)) [.csLow] []
    | none =>
      match env.bus1Res with
      | some se =>
        finish_transaction env.disableRes (.error (.Spi se))
          [.csLow, .spiWrite cmd] []
      | none =>
        match env.bus2Res with
        | some se =>
          finish_transaction env.disableRes (.error (.Spi se))
            [.csLow, .spiWrite cmd, .spiWrite data] []
        | none =>
          finish_transaction env.disableRes (.ok ())
            [.csLow, .spiWrite cmd, .spiWrite data] []
  else .aborted []

/-- Embedding of `read_eui48(eui48)`: delegates to
`read_data(EUI48_MEMORY_ADDRESS, eui48)`. The Rust parameter is
`&mut [u8; EUI48_BYTES]`; here the buffer is a list whose length
theorems constrain to `EUI48_BYTES`. -/
def read_eui48 {Se Pe : Type} (env : Env Se Pe) (eui48 : List Nat) :
    OpResult Se Pe :=
  read_data env EUI48_MEMORY_ADDRESS eui48

/-- An all-success oracle over `Nat` error payloads, for witnesses. -/
def envOk : Env Nat Nat := ⟨none, none, none, none, fun i => i + 1⟩

/-- An oracle whose chip-select assert fails with pin error `7`. -/
def envEnableFail : Env Nat Nat := ⟨some 7, none, none, none, fun _ => 0⟩

/-- An oracle whose SPI calls fail (`3` first call, `4` second call)
but whose chip-select calls succeed. -/
def envBusFail : Env Nat Nat := ⟨none, none, some 3, some 4, fun _ => 0⟩

/-- An oracle whose SPI calls fail (`3`, `4`) and whose chip-select
deassert also fails with pin error `9`. -/
def envBusDisableFail : Env Nat Nat := ⟨none, some 9, some 3, some 4, fun _ => 0⟩

/-- An oracle where only the second SPI call (the transfer / payload
phase) fails, with SPI error `4`. -/
def envBus2Fail : Env Nat Nat := ⟨none, none, none, some 4, fun _ => 0⟩

/-- Number of chip-select assert attempts (`csLow` events) in a trace. -/
def countCsLow : List Event → Nat
  | [] => 0
  | .csLow :: tr => countCsLow tr + 1
  | _ :: tr => countCsLow tr

/-- Number of chip-select deassert attempts (`csHigh` events) in a trace. -/
def countCsHigh : List Event → Nat
  | [] => 0
  | .csHigh :: tr => countCsHigh tr + 1
  | _ :: tr => countCsHigh tr

/-- The range check accepts the fixed EUI48 read (`0xFA + 6 - 1 = 0xFF`). -/
theorem addr_len_ok_eui48 : addr_len_ok EUI48_MEMORY_ADDRESS EUI48_BYTES = true := by
  decide

/-- Claim C4: for every address `a` and non-empty buffer of length `l` with
`a + l - 1 ≤ 255`, when both chip-select calls and both bus calls succeed,
`read_data` issues exactly one 2-byte bus write `[0x03, a]` followed by
exactly one combined transfer of length `l`, in that order, returns
`Ok(())`, and the buffer holds the `l` bytes clocked in by the transfer. -/
theorem claim4_read_data_frames {Se Pe : Type} (env : Env Se Pe) (a : Nat)
    (data : List Nat) (hl : 1 ≤ data.length)
    (hr : a + data.length - 1 ≤ MAX_ADDR)
    (hen : env.enableRes = none) (hb1 : env.bus1Res = none)
    (hb2 : env.bus2Res = none) (hd : env.disableRes = none) :
    read_data env a data =
      .done (.ok ())
        [.csLow, .spiWrite [INSTRUCTION_READ, a], .spiTransfer data.length,
         .csHigh]
        ((List.range data.length).map env.recv) := by
  have hr255 : a + data.length - 1 ≤ 255 := hr
  have hok : addr_len_ok a data.length = true := by
    simp [addr_len_ok, MAX_ADDR]
    omega
  simp [read_data, hok, hen, hb1, hb2, hd, finish_transaction]

/-- Claim C4 witness at `a = 10`, buffer `[0, 0]`, all-success oracle. -/
theorem claim4_witness :
    1 ≤ ([0, 0] : List Nat).length ∧
    10 + ([0, 0] : List Nat).length - 1 ≤ MAX_ADDR ∧
    read_data envOk 10 [0, 0] =
      .done (.ok ())
        [.csLow, .spiWrite [INSTRUCTION_READ, 10], .spiTransfer 2, .csHigh]
        [1, 2] :=
  ⟨by decide, by decide,
   claim4_read_data_frames envOk 10 [0, 0] (by decide) (by decide)
     rfl rfl rfl rfl⟩

/-- Claim C5: for every address `a` and buffer length `l` with
`a + l - 1 > 255`, `read_data` aborts via the range assertion before any
chip-select or bus activity: the result is an abort with an empty event
trace, not a recoverable error value. -/
theorem claim5_read_range_precondition {Se Pe : Type} (env : Env Se Pe)
    (a : Nat) (data : List Nat) (h : a + data.length - 1 > MAX_ADDR) :
    read_data env a data = .aborted [] := by
  have h255 : a + data.length - 1 > 255 := h
  have hok : addr_len_ok a data.length = false := by
    simp [addr_len_ok, MAX_ADDR]
    omega
  simp [read_data, hok]

/-- Claim C5 witness at `a = 200`, buffer length `100` (`299 > 255`). -/
theorem claim5_witness :
    200 + (List.replicate 100 0).length - 1 > MAX_ADDR ∧
    read_data envOk 200 (List.replicate 100 0) = .aborted [] :=
  ⟨by decide,
   claim5_read_range_precondition envOk 200 (List.replicate 100 0)
     (by decide)⟩

/-- Claim C6: `write_page` aborts via the alignment assertion, with no
chip-select or bus call issued, for every address with `a % 16 ≠ 0`; for
every `a` with `a % 16 = 0` the assertion passes and the operation
proceeds (it does not abort, and its first collaborator event is the
chip-select assert attempt). -/
theorem claim6_write_page_alignment {Se Pe : Type} (env : Env Se Pe)
    (a : Nat) (data : List Nat) :
    (a % PAGE_SIZE ≠ 0 → write_page env a data = .aborted []) ∧
    (a % PAGE_SIZE = 0 →
      isAborted (write_page env a data) = false ∧
      (opTrace (write_page env a data)).head? = some .csLow) := by
  constructor
  · intro h
    simp [write_page, h]
  · intro h
    rcases env with ⟨er, dr, b1, b2, rv⟩
    cases er <;> cases dr <;> cases b1 <;> cases b2 <;>
      simp [write_page, h, isAborted, opTrace, finish_transaction]

/-- Claim C6 witness: misaligned `a = 5` aborts; aligned `a = 16` does
not abort and starts with the chip-select assert attempt. -/
theorem claim6_witness :
    write_page envOk 5 (List.replicate 16 0) = .aborted [] ∧
    isAborted (write_page envOk 16 (List.replicate 16 0)) = false ∧
    (opTrace (write_page envOk 16 (List.replicate 16 0))).head? =
      some .csLow :=
  ⟨(claim6_write_page_alignment envOk 5 (List.replicate 16 0)).1 (by decide),
   ((claim6_write_page_alignment envOk 16 (List.replicate 16 0)).2
     (by decide)).1,
   ((claim6_write_page_alignment envOk 16 (List.replicate 16 0)).2
     (by decide)).2⟩

/-- Claim C7: for every 16-aligned address `a` and 16-byte payload, when
all collaborator calls succeed, `write_page` issues exactly two separate
bus writes in order — the 2-byte command frame `[0x02, a]`, then the
payload — bracketed by the chip-select calls. -/
theorem claim7_write_page_frames {Se Pe : Type} (env : Env Se Pe) (a : Nat)
    (data : List Nat) (ha : a % PAGE_SIZE = 0)
    (_hlen : data.length = PAGE_SIZE)
    (hen : env.enableRes = none) (hb1 : env.bus1Res = none)
    (hb2 : env.bus2Res = none) (hd : env.disableRes = none) :
    write_page env a data =
      .done (.ok ())
        [.csLow, .spiWrite [INSTRUCTION_WRITE, a], .spiWrite data, .csHigh]
        [] := by
  simp [write_page, ha, hen, hb1, hb2, hd, finish_transaction]

/-- Claim C7 witness at `a = 0x00` with payload `0, 1, ..., 15`:
frames are `[0x02, 0x00]` then the 16 payload bytes. -/
theorem claim7_witness :
    0 % PAGE_SIZE = 0 ∧ (List.range 16).length = PAGE_SIZE ∧
    write_page envOk 0 (List.range 16) =
      .done (.ok ())
        [.csLow, .spiWrite [INSTRUCTION_WRITE, 0], .spiWrite (List.range 16),
         .csHigh]
        [] :=
  ⟨by decide, by decide,
   claim7_write_page_frames envOk 0 (List.range 16) (by decide) (by decide)
     rfl rfl rfl rfl⟩

/-- Claim C8: for every address `a` and byte value `v`, when all
collaborator calls succeed, `write_byte` issues exactly one bus write of
the single 3-byte frame `[0x02, a, v]`, bracketed by the chip-select
calls, with no address validation beyond the 8-bit type. -/
theorem claim8_write_byte_frame {Se Pe : Type} (env : Env Se Pe) (a v : Nat)
    (hen : env.enableRes = none) (hb1 : env.bus1Res = none)
    (hd : env.disableRes = none) :
    write_byte env a v =
      .done (.ok ())
        [.csLow, .spiWrite [INSTRUCTION_WRITE, a, v], .csHigh] [] := by
  simp [write_byte, hen, hb1, hd, finish_transaction]

/-- Claim C8 witness at `a = 0x10`, `v = 0xAB`: the single frame is
`[0x02, 0x10, 0xAB]`. -/
theorem claim8_witness :
    write_byte envOk 0x10 0xAB =
      .done (.ok ())
        [.csLow, .spiWrite [0x02, 0x10, 0xAB], .csHigh] [] :=
  claim8_write_byte_frame envOk 0x10 0xAB rfl rfl rfl

/-- Claim C3: for every operation, if the chip-select enable call fails,
the operation returns a pin error immediately: its whole event trace is
the single failed assert attempt, so no bus write and no transfer is
issued, and the buffer is untouched. -/
theorem claim3_enable_failure_aborts {Se Pe : Type} (env : Env Se Pe)
    (pe : Pe) (a v : Nat) (data page buf : List Nat)
    (hok : addr_len_ok a data.length = true) (ha : a % PAGE_SIZE = 0)
    (hbuf : buf.length = EUI48_BYTES) (hen : env.enableRes = some pe) :
    read_data env a data = .done (.error (.Pin pe)) [.csLow] data ∧
    write_byte env a v = .done (.error (.Pin pe)) [.csLow] [] ∧
    write_page env a page = .done (.error (.Pin pe)) [.csLow] [] ∧
    read_eui48 env buf = .done (.error (.Pin pe)) [.csLow] buf := by
  have h6 : addr_len_ok EUI48_MEMORY_ADDRESS buf.length = true := by
    rw [hbuf]
    exact addr_len_ok_eui48
  refine ⟨?_, ?_, ?_, ?_⟩ <;>
    simp [read_data, write_byte, write_page, read_eui48, hok, ha, hen, h6]

/-- Claim C3 witness on the enable-fail oracle: `read_data` and
`write_byte` both return the pin error with the single-event trace. -/
theorem claim3_witness :
    read_data envEnableFail 16 [0] = .done (.error (.Pin 7)) [.csLow] [0] ∧
    write_byte envEnableFail 0x10 0xAB =
      .done (.error (.Pin 7)) [.csLow] [] :=
  ⟨(claim3_enable_failure_aborts envEnableFail 7 16 0xAB [0]
      (List.replicate 16 0) (List.replicate 6 0) (by decide) (by decide)
      (by decide) rfl).1,
   (claim3_enable_failure_aborts envEnableFail 7 16 0xAB [0]
      (List.replicate 16 0) (List.replicate 6 0) (by decide) (by decide)
      (by decide) rfl).2.1⟩

/-- Claim C2: for every operation, after a failed bus exchange the
captured bus error is returned only if the chip-select disable call
succeeds; if the disable call also fails, its pin error replaces the
captured bus error (the disable failure masks the bus fault). -/
theorem claim2_disable_masks_bus_error {Se Pe : Type} (env : Env Se Pe)
    (a v : Nat) (data page buf : List Nat) (se : Se)
    (hok : addr_len_ok a data.length = true) (ha : a % PAGE_SIZE = 0)
    (hbuf : buf.length = EUI48_BYTES) (hen : env.enableRes = none)
    (hbus : env.bus1Res = some se ∨
      (env.bus1Res = none ∧ env.bus2Res = some se)) :
    (∀ pe, env.disableRes = some pe →
      opError (read_data env a data) = some (.Pin pe) ∧
      opError (write_page env a page) = some (.Pin pe) ∧
      opError (read_eui48 env buf) = some (.Pin pe) ∧
      (env.bus1Res = some se → opError (write_byte env a v) = some (.Pin pe))) ∧
    (env.disableRes = none →
      opError (read_data env a data) = some (.Spi se) ∧
      opError (write_page env a page) = some (.Spi se) ∧
      opError (read_eui48 env buf) = some (.Spi se) ∧
      (env.bus1Res = some se → opError (write_byte env a v) = some (.Spi se))) := by
  have h6 : addr_len_ok EUI48_MEMORY_ADDRESS buf.length = true := by
    rw [hbuf]
    exact addr_len_ok_eui48
  rcases hbus with hb1 | ⟨hb1, hb2⟩
  · refine ⟨fun pe hd => ⟨?_, ?_, ?_, fun _ => ?_⟩,
      fun hd => ⟨?_, ?_, ?_, fun _ => ?_⟩⟩ <;>
      simp [read_data, write_page, write_byte, read_eui48, opError,
        hok, ha, h6, hen, hb1, hd, finish_transaction]
  · refine ⟨fun pe hd => ⟨?_, ?_, ?_, fun hw => ?_⟩,
      fun hd => ⟨?_, ?_, ?_, fun hw => ?_⟩⟩ <;>
      simp_all [read_data, write_page, write_byte, read_eui48, opError,
        hok, ha, h6, hen, hb1, hb2, finish_transaction]

/-- Claim C2 witness: bus failure plus disable failure yields the pin
error `9`; bus failure with a successful disable yields the bus error
`3`. -/
theorem claim2_witness :
    opError (read_data envBusDisableFail 16 [0]) = some (Error.Pin 9) ∧
    opError (read_data envBusFail 16 [0]) = some (Error.Spi 3) :=
  ⟨((claim2_disable_masks_bus_error envBusDisableFail 16 0xAB [0]
      (List.replicate 16 0) (List.replicate 6 0) 3 (by decide) (by decide)
      (by decide) rfl (Or.inl rfl)).1 9 rfl).1,
   ((claim2_disable_masks_bus_error envBusFail 16 0xAB [0]
      (List.replicate 16 0) (List.replicate 6 0) 3 (by decide) (by decide)
      (by decide) rfl (Or.inl rfl)).2 rfl).1⟩

/-- Claim C1 counterexample: the claim extends the exactly-once bracket
to the path where the chip-select enable call itself fails, but on that
path `read_data` (at address `0`, one-byte buffer, enable failing with
pin error `7`) returns with event trace `[csLow]`: the deassert is
attempted zero times, not exactly once. -/
theorem claim1_counterexample :
    opTrace (read_data envEnableFail 0 [0]) = [Event.csLow] ∧
    countCsHigh (opTrace (read_data envEnableFail 0 [0])) = 0 := by
  constructor <;> rfl

/-- Claim C1 (amended): for every operation, on every code path where
the chip-select enable call succeeds — including all bus-exchange
failure paths and the disable-failure path — chip-select is asserted
exactly once and deasserted exactly once before the operation returns;
on the path where the enable call itself fails, the operation returns
immediately after the single failed assert attempt, with no deassert
attempt at all. -/
theorem claim1_cs_bracket {Se Pe : Type} (env : Env Se Pe) (a v : Nat)
    (data page buf : List Nat)
    (hok : addr_len_ok a data.length = true) (ha : a % PAGE_SIZE = 0)
    (hbuf : buf.length = EUI48_BYTES) :
    (env.enableRes = none →
      (countCsLow (opTrace (read_data env a data)) = 1 ∧
       countCsHigh (opTrace (read_data env a data)) = 1) ∧
      (countCsLow (opTrace (write_byte env a v)) = 1 ∧
       countCsHigh (opTrace (write_byte env a v)) = 1) ∧
      (countCsLow (opTrace (write_page env a page)) = 1 ∧
       countCsHigh (opTrace (write_page env a page)) = 1) ∧
      (countCsLow (opTrace (read_eui48 env buf)) = 1 ∧
       countCsHigh (opTrace (read_eui48 env buf)) = 1)) ∧
    (∀ pe, env.enableRes = some pe →
      opTrace (read_data env a data) = [.csLow] ∧
      opTrace (write_byte env a v) = [.csLow] ∧
      opTrace (write_page env a page) = [.csLow] ∧
      opTrace (read_eui48 env buf) = [.csLow]) := by
  have h6 : addr_len_ok EUI48_MEMORY_ADDRESS buf.length = true := by
    rw [hbuf]
    exact addr_len_ok_eui48
  constructor
  · intro hen
    rcases env with ⟨er, dr, b1, b2, rv⟩
    simp only [Env.enableRes] at hen
    subst hen
    cases dr <;> cases b1 <;> cases b2 <;>
      simp [read_data, write_byte, write_page, read_eui48, hok, ha, h6,
        finish_transaction, opTrace, countCsLow, countCsHigh]
  · intro pe hen
    refine ⟨?_, ?_, ?_, ?_⟩ <;>
      simp [read_data, write_byte, write_page, read_eui48, hok, ha, h6,
        hen, opTrace]

/-- Claim C1 witness: on the bus-and-disable-failure oracle the
`read_data` trace still has exactly one assert and one deassert; on the
enable-failure oracle the `write_byte` trace is the single assert. -/
theorem claim1_witness :
    (countCsLow (opTrace (read_data envBusDisableFail 16 [0])) = 1 ∧
     countCsHigh (opTrace (read_data envBusDisableFail 16 [0])) = 1) ∧
    opTrace (write_byte envEnableFail 16 0xAB) = [.csLow] :=
  ⟨((claim1_cs_bracket envBusDisableFail 16 0xAB [0] (List.replicate 16 0)
      (List.replicate 6 0) (by decide) (by decide) (by decide)).1 rfl).1,
   ((claim1_cs_bracket envEnableFail 16 0xAB [0] (List.replicate 16 0)
      (List.replicate 6 0) (by decide) (by decide) (by decide)).2 7
      rfl).2.1⟩

/-- Claim C9: `read_eui48` is exactly `read_data` at the fixed address
`0xFA` with its 6-byte buffer — the same result and the same error
semantics for every oracle — and on the all-success paths it issues the
command frame `[0x03, 0xFA]` followed by a 6-byte transfer. -/
theorem claim9_read_eui48_refines_read_data {Se Pe : Type}
    (env : Env Se Pe) (buf : List Nat) (hbuf : buf.length = EUI48_BYTES) :
    read_eui48 env buf = read_data env EUI48_MEMORY_ADDRESS buf ∧
    (env.enableRes = none → env.bus1Res = none → env.bus2Res = none →
      env.disableRes = none →
      read_eui48 env buf =
        .done (.ok ())
          [.csLow, .spiWrite [INSTRUCTION_READ, EUI48_MEMORY_ADDRESS],
           .spiTransfer EUI48_BYTES, .csHigh]
          ((List.range EUI48_BYTES).map env.recv)) := by
  have h6 : addr_len_ok EUI48_MEMORY_ADDRESS buf.length = true := by
    rw [hbuf]
    exact addr_len_ok_eui48
  refine ⟨rfl, fun hen hb1 hb2 hd => ?_⟩
  simp [read_eui48, read_data, h6, hen, hb1, hb2, hd, finish_transaction,
    hbuf, addr_len_ok_eui48]

/-- Claim C9 witness at the all-success oracle with a zeroed 6-byte
buffer: frame `[0x03, 0xFA]`, then a 6-byte transfer. -/
theorem claim9_witness :
    (List.replicate 6 0).length = EUI48_BYTES ∧
    read_eui48 envOk (List.replicate 6 0) =
      read_data envOk EUI48_MEMORY_ADDRESS (List.replicate 6 0) ∧
    read_eui48 envOk (List.replicate 6 0) =
      .done (.ok ())
        [.csLow, .spiWrite [0x03, 0xFA], .spiTransfer 6, .csHigh]
        [1, 2, 3, 4, 5, 6] :=
  ⟨by decide,
   (claim9_read_eui48_refines_read_data envOk (List.replicate 6 0)
      (by decide)).1,
   (claim9_read_eui48_refines_read_data envOk (List.replicate 6 0)
      (by decide)).2 rfl rfl rfl rfl⟩

/-- Claim C10: `read_data` with an empty buffer is not handled
uniformly: at address `0` the precondition arithmetic
`address + len - 1` underflows and the call aborts before any I/O, while
for every address in `1..=255` the assertion passes — the call never
aborts — and on the all-success paths a full transaction (chip-select
bracket, 2-byte command `[0x03, a]`, zero-length transfer) is issued. -/
theorem claim10_empty_buffer {Se Pe : Type} (env : Env Se Pe) (a : Nat) :
    read_data env 0 [] = .aborted [] ∧
    (1 ≤ a → a ≤ MAX_ADDR →
      isAborted (read_data env a []) = false ∧
      (env.enableRes = none → env.bus1Res = none → env.bus2Res = none →
        env.disableRes = none →
        read_data env a [] =
          .done (.ok ())
            [.csLow, .spiWrite [INSTRUCTION_READ, a], .spiTransfer 0,
             .csHigh]
            [])) := by
  refine ⟨rfl, fun h1 h2 => ?_⟩
  have h255 : a ≤ 255 := h2
  have hok : addr_len_ok a 0 = true := by
    simp [addr_len_ok, MAX_ADDR]
    omega
  constructor
  · rcases env with ⟨er, dr, b1, b2, rv⟩
    cases er <;> cases dr <;> cases b1 <;> cases b2 <;>
      simp [read_data, hok, isAborted, finish_transaction]
  · intro hen hb1 hb2 hd
    simp [read_data, hok, hen, hb1, hb2, hd, finish_transaction]

/-- Claim C10 witness: address `0` with the empty buffer aborts; address
`1` with the empty buffer runs the full transaction on the all-success
oracle. -/
theorem claim10_witness :
    read_data envOk 0 [] = .aborted [] ∧
    isAborted (read_data envOk 1 []) = false ∧
    read_data envOk 1 [] =
      .done (.ok ())
        [.csLow, .spiWrite [0x03, 1], .spiTransfer 0, .csHigh] [] :=
  ⟨(claim10_empty_buffer envOk 0).1,
   ((claim10_empty_buffer envOk 1).2 (by decide) (by decide)).1,
   ((claim10_empty_buffer envOk 1).2 (by decide) (by decide)).2
     rfl rfl rfl rfl⟩

end Eeprom25x
